import Mathlib

/-!
Verification development for the node-app-db repository (`src/app.js` and the
bundled walkthrough that carries `views/index.ejs` and the `products` schema).

The embedding is shallow: the startup environment checks, the single
`GET /` route, the template, and the SIGINT shutdown path of `app.js` are
translated into Lean definitions, and the claims of the specification are settled
as theorems about those definitions.  External collaborators that are not
part of this repository (the AWS presigner, the mysql2 pool internals) are
modelled from the specification where a claim depends on their semantics;
each such definition says so in its doc comment.
-/

namespace NodeAppDb

/-! ## Process environment and startup validation (`src/app.js` lines 22-30) -/

/-- The eight environment variables `app.js` reads.  `none` models an unset
variable; `some ""` models a variable set to the empty string (both are falsy
in JavaScript). -/
structure Env where
  DB_HOST : Option String
  DB_USER : Option String
  DB_PASSWORD : Option String
  DB_NAME : Option String
  AWS_ACCESS_KEY_ID : Option String
  AWS_SECRET_ACCESS_KEY : Option String
  AWS_REGION : Option String
  S3_BUCKET_NAME : Option String
deriving DecidableEq

/-- JavaScript falsiness of `process.env.X` as used in `!process.env.X`:
an unset variable is `undefined` (falsy) and the empty string is falsy. -/
def falsy : Option String → Bool
  | none => true
  | some s => s == ""

/-- The condition of the first startup check in `app.js`:
`!process.env.DB_HOST || !process.env.DB_USER || !process.env.DB_PASSWORD || !process.env.DB_NAME`. -/
def dbEnvMissing (e : Env) : Bool :=
  falsy e.DB_HOST || falsy e.DB_USER || falsy e.DB_PASSWORD || falsy e.DB_NAME

/-- The condition of the second startup check in `app.js`:
`!process.env.AWS_ACCESS_KEY_ID || !process.env.AWS_SECRET_ACCESS_KEY || !process.env.AWS_REGION || !process.env.S3_BUCKET_NAME`. -/
def awsEnvMissing (e : Env) : Bool :=
  falsy e.AWS_ACCESS_KEY_ID || falsy e.AWS_SECRET_ACCESS_KEY ||
    falsy e.AWS_REGION || falsy e.S3_BUCKET_NAME

/-- Diagnostic printed by the first check in `app.js`. -/
def dbEnvMsg : String := "Missing required environment variables for database connection"

/-- Diagnostic printed by the second check in `app.js`. -/
def awsEnvMsg : String := "Missing required AWS environment variables"

/-- Outcome of running the top level of `app.js`: either `process.exit(code)`
was reached after printing `msg`, or control reached `app.listen(port)`. -/
inductive StartupOutcome where
  | exited (code : Nat) (msg : String)
  | listening (port : Nat)
deriving DecidableEq

/-- The top-level control flow of `app.js`: the database-variable check runs
first and exits with status 1 on failure; then the AWS-variable check runs and
exits with status 1 on failure; otherwise control reaches `app.listen(3000)`. -/
def startup (e : Env) : StartupOutcome :=
  if dbEnvMissing e then .exited 1 dbEnvMsg
  else if awsEnvMissing e then .exited 1 awsEnvMsg
  else .listening 3000

/-! ## Product rows and the `index.ejs` view -/

/-- One row of the `products` table
(`id INT AUTO_INCREMENT PRIMARY KEY, name VARCHAR(255) NOT NULL,
description TEXT, price DECIMAL(10, 2)`).  The `DECIMAL(10, 2)` value is
represented exactly by its number of hundredths. -/
structure Product where
  id : Nat
  name : String
  description : Option String
  priceCents : Int
deriving DecidableEq

/-- The character for the decimal digit `n % 10`. -/
def digitChar (n : Nat) : Char := Char.ofNat (48 + n % 10)

/-- The two-digit fractional part of a `DECIMAL(.., 2)` value, as the mysql
driver renders it: tens digit then units digit, zero-padded. -/
def fracTwo (n : Nat) : String := String.mk [digitChar (n / 10), digitChar n]

/-- The string the mysql2 driver delivers for a `DECIMAL(10, 2)` column value
of `cents` hundredths (decimals arrive as strings with the declared scale,
e.g. `"19.99"`, `"5.00"`). -/
def decimalString (cents : Int) : String :=
  (if cents < 0 then "-" else "") ++ toString (cents.natAbs / 100) ++ "." ++
    fracTwo (cents.natAbs % 100)

/-- One `<li>` entry produced by the product loop of `index.ejs`: it shows
`product.name`, `product.description` and `Price: $` followed by
`product.price`. -/
structure RenderedItem where
  name : String
  description : String
  priceText : String
deriving DecidableEq

/-- The rendering of one product by the loop body of `index.ejs`.  A `NULL`
description interpolates as the empty string. -/
def renderProduct (p : Product) : RenderedItem :=
  { name := p.name
    description := p.description.getD ""
    priceText := "Price: $" ++ decimalString p.priceCents }

/-- A presigned retrieval URL, by the data it encodes: bucket, object key,
issuance time (seconds) and validity window (`X-Amz-Expires`) in seconds. -/
structure SignedUrl where
  bucket : String
  key : String
  issuedAt : Nat
  expiresIn : Nat
deriving DecidableEq

/-- The absolute expiry instant encoded by a signed URL. -/
def SignedUrl.expiresAt (u : SignedUrl) : Nat := u.issuedAt + u.expiresIn

/-- The page produced by `index.ejs`: the banner image source and one list
item per product, in query order. -/
structure Page where
  bannerUrl : SignedUrl
  items : List RenderedItem
deriving DecidableEq

/-- `res.render` of the index view with products and bannerUrl: the template maps the
product rows, in order, through its loop body. -/
def renderIndex (products : List Product) (bannerUrl : SignedUrl) : Page :=
  { bannerUrl := bannerUrl, items := products.map renderProduct }

/-! ## The `GET /` handler (`src/app.js` lines 48-71) -/

/-- A response body: `res.send` of plain text, or the HTML page produced by
`res.render`. -/
inductive Body where
  | text (s : String)
  | html (p : Page)
deriving DecidableEq

/-- An HTTP response: status and body. -/
structure Response where
  status : Nat
  body : Body
deriving DecidableEq

/-- Observable events of one run of the `GET /` handler, in program order. -/
inductive Event where
  | queryRun (sql : String)
  | queryOk (results : List Product)
  | signStart (bucket key : String) (expiresIn : Nat)
  | logErr (msg : String)
  | renderCall (products : List Product) (bannerUrl : SignedUrl)
  | respond (r : Response)
deriving DecidableEq

/-- Per-request nondeterminism: the outcome the database callback receives,
the outcome of the presigning attempt, and the clock reading at signing time. -/
structure RequestCtx where
  dbResult : Except String (List Product)
  s3Result : Except String Unit
  now : Nat

/-- Modelled from the spec: `getSignedUrl` of `@aws-sdk/s3-request-presigner`
(an external library, not part of this repository).  Per the specification, a
successful call produces a URL for the given key whose expiry is `expiresIn`
seconds from issuance; failures surface as a thrown error. -/
def getSignedUrl (bucket key : String) (expiresIn : Nat) (now : Nat)
    (outcome : Except String Unit) : Except String SignedUrl :=
  match outcome with
  | .error e => .error e
  | .ok _ => .ok { bucket := bucket, key := key, issuedAt := now, expiresIn := expiresIn }

/-- The `GET /` handler of `app.js` as a trace of events.  `db.query` runs the
fixed query; on callback error it logs and sends 500 `Database error` and
returns; otherwise it builds the `GetObjectCommand` for key `banner.jpg`,
awaits `getSignedUrl` with `expiresIn: 3600`, and either renders `index` with
the results and the URL (Express sends it with status 200) or, if the try
block threw, logs and sends 500 `S3 error`. -/
def handleRoot (bucket : String) (ctx : RequestCtx) : List Event :=
  match ctx.dbResult with
  | .error e =>
      [ .queryRun "SELECT * FROM products"
      , .logErr ("Error fetching data from database: " ++ e)
      , .respond { status := 500, body := .text "Database error" } ]
  | .ok results =>
      match getSignedUrl bucket "banner.jpg" 3600 ctx.now ctx.s3Result with
      | .error e =>
          [ .queryRun "SELECT * FROM products"
          , .queryOk results
          , .signStart bucket "banner.jpg" 3600
          , .logErr ("Error fetching static file from S3: " ++ e)
          , .respond { status := 500, body := .text "S3 error" } ]
      | .ok url =>
          [ .queryRun "SELECT * FROM products"
          , .queryOk results
          , .signStart bucket "banner.jpg" 3600
          , .renderCall results url
          , .respond { status := 200, body := .html (renderIndex results url) } ]

/-- The response an event sends, if any. -/
def responseOfEvent : Event → Option Response
  | .respond r => some r
  | _ => none

/-- The responses a trace sends, in order. -/
def responsesOf (tr : List Event) : List Response :=
  tr.filterMap responseOfEvent

/-- The signed URL embedded in the page an event sends, if any. -/
def urlOfEvent : Event → Option SignedUrl
  | .respond { status := _, body := .html pg } => some pg.bannerUrl
  | _ => none

/-- The signed URLs embedded in the pages a trace sends. -/
def signedUrlsOf (tr : List Event) : List SignedUrl :=
  tr.filterMap urlOfEvent

/-- Whether an event is the start of the URL-signing step. -/
def Event.isSignStart : Event → Bool
  | .signStart _ _ _ => true
  | _ => false

/-- Whether an event is the successful completion of the database fetch. -/
def Event.isQueryOk : Event → Bool
  | .queryOk _ => true
  | _ => false

/-- Index of the first event satisfying `p`, if any. -/
def firstIdx (p : Event → Bool) : List Event → Option Nat
  | [] => none
  | e :: es => if p e then some 0 else (firstIdx p es).map (· + 1)

/-! ## Substring occurrence (for the error-body claims) -/

/-- `hasPre hay needle`: `needle` is an initial run of `hay`. -/
def hasPre : List Char → List Char → Bool
  | _, [] => true
  | [], _ :: _ => false
  | a :: as, b :: bs => a == b && hasPre as bs

/-- `occursIn needle hay`: `needle` occurs contiguously inside `hay`. -/
def occursIn (needle : List Char) : List Char → Bool
  | [] => hasPre [] needle
  | a :: t => hasPre (a :: t) needle || occursIn needle t

/-- `containsRun hay needle`: the text `needle` occurs inside the text `hay`. -/
def containsRun (hay needle : String) : Bool :=
  occursIn needle.toList hay.toList

/-- The digits after the last `.` of a string (empty if there is no `.`). -/
def fractionDigits (s : String) : List Char :=
  (s.toList.reverse.takeWhile (fun c => c != '.')).reverse

/-! ## The SIGINT handler (`src/app.js` lines 79-85) -/

/-- The observable state of the mysql connection pool: how many checked-out
operations are in flight, whether new checkouts are accepted, and whether the
pool has been closed. -/
structure Pool where
  inFlight : Nat
  accepting : Bool
  closed : Bool
deriving DecidableEq

/-- A checkout attempt against the pool: it succeeds only while the pool is
accepting and not closed. -/
def checkout (p : Pool) : Option Pool :=
  if p.accepting && !p.closed then some { p with inFlight := p.inFlight + 1 } else none

/-- Modelled from the spec: the first phase of `db.end()` of the mysql2
library (external to this repository).  Per the shutdown contract of the specification, ending the pool first stops accepting new connection checkouts. -/
def poolEnd (p : Pool) : Pool := { p with accepting := false }

/-- One in-flight pool operation completes. -/
def completeOp (p : Pool) : Pool := { p with inFlight := p.inFlight - 1 }

/-- Modelled from the spec: the draining phase of `db.end()` — `k` in-flight
operations complete, one after another, before the pool may close. -/
def drainSteps : Nat → Pool → Pool
  | 0, p => p
  | k + 1, p => drainSteps k (completeOp p)

/-- The pool is closed (connections torn down). -/
def closePool (p : Pool) : Pool := { p with closed := true }

/-- Outcome of the SIGINT handler: final pool state and process exit code. -/
structure ShutdownResult where
  pool : Pool
  exitCode : Nat
deriving DecidableEq

/-- The SIGINT handler of `app.js`: it calls `db.end` — which stops new
checkouts, lets every in-flight operation complete, then closes the pool —
and from the completion callback calls `process.exit(0)`. -/
def sigintHandler (p : Pool) : ShutdownResult :=
  let stopped := poolEnd p
  let drained := drainSteps stopped.inFlight stopped
  { pool := closePool drained, exitCode := 0 }

/-! ## Concrete test fixtures -/

/-- A configuration with `DB_HOST` unset and every other variable set. -/
def envNoDbHost : Env :=
  { DB_HOST := none
    DB_USER := some "u"
    DB_PASSWORD := some "p"
    DB_NAME := some "n"
    AWS_ACCESS_KEY_ID := some "a"
    AWS_SECRET_ACCESS_KEY := some "s"
    AWS_REGION := some "r"
    S3_BUCKET_NAME := some "b" }

/-- A configuration with every variable unset. -/
def envAllUnset : Env :=
  { DB_HOST := none
    DB_USER := none
    DB_PASSWORD := none
    DB_NAME := none
    AWS_ACCESS_KEY_ID := none
    AWS_SECRET_ACCESS_KEY := none
    AWS_REGION := none
    S3_BUCKET_NAME := none }

/-- The sample rows the walkthrough inserts into `products`. -/
def sampleProducts : List Product :=
  [ { id := 1, name := "Product 1", description := some "Description of Product 1", priceCents := 1999 }
  , { id := 2, name := "Product 2", description := some "Description of Product 2", priceCents := 2999 }
  , { id := 3, name := "Product 3", description := some "Description of Product 3", priceCents := 3999 } ]

/-! ## Helper lemmas -/

lemma digitChar_props (n : Nat) :
    (digitChar n).isDigit = true ∧ (digitChar n != '.') = true := by
  have h : n % 10 < 10 := Nat.mod_lt _ (by omega)
  have all : ∀ m < 10,
      ((Char.ofNat (48 + m)).isDigit = true ∧ ((Char.ofNat (48 + m)) != '.') = true) := by
    decide
  exact all (n % 10) h

lemma fractionDigits_price (a : String) (n : Nat) :
    fractionDigits (a ++ "." ++ fracTwo n) = [digitChar (n / 10), digitChar n] := by
  have h1 := (digitChar_props (n / 10)).2
  have h2 := (digitChar_props n).2
  unfold fractionDigits fracTwo
  have hl : (a ++ "." ++ String.mk [digitChar (n / 10), digitChar n]).toList
      = a.toList ++ ['.', digitChar (n / 10), digitChar n] := by
    simp [String.toList, String.data_append]
  rw [hl]
  simp [List.takeWhile_cons, h1, h2]

lemma priceText_decomp (p : Product) :
    (renderProduct p).priceText
      = ("Price: $" ++ ((if p.priceCents < 0 then "-" else "")
          ++ toString (p.priceCents.natAbs / 100))) ++ "." ++ fracTwo (p.priceCents.natAbs % 100) := by
  unfold renderProduct decimalString
  simp [String.append_assoc]

lemma fractionDigits_priceText (p : Product) :
    fractionDigits (renderProduct p).priceText
      = [digitChar (p.priceCents.natAbs % 100 / 10), digitChar (p.priceCents.natAbs % 100)] := by
  rw [priceText_decomp, fractionDigits_price]

/-! ## Claims -/

/-- C1: for every startup configuration in which at least one of the eight
required environment variables is missing or empty, the process exits with
status 1 before binding a listening port, emitting a diagnostic that names a
configuration group (database or object store) that is indeed incomplete. -/
theorem C1_missing_env_exits (e : Env)
    (h : (falsy e.DB_HOST || falsy e.DB_USER || falsy e.DB_PASSWORD || falsy e.DB_NAME ||
          falsy e.AWS_ACCESS_KEY_ID || falsy e.AWS_SECRET_ACCESS_KEY ||
          falsy e.AWS_REGION || falsy e.S3_BUCKET_NAME) = true) :
    ∃ msg, startup e = .exited 1 msg ∧
      ((msg = dbEnvMsg ∧ dbEnvMissing e = true) ∨ (msg = awsEnvMsg ∧ awsEnvMissing e = true)) ∧
      ∀ port, startup e ≠ .listening port := by
  by_cases hdb : dbEnvMissing e = true
  · exact ⟨dbEnvMsg, by simp [startup, hdb], Or.inl ⟨rfl, hdb⟩, by simp [startup, hdb]⟩
  · have haws : awsEnvMissing e = true := by
      simp only [dbEnvMissing, Bool.or_eq_true] at hdb
      simp only [Bool.or_eq_true] at h
      simp only [awsEnvMissing, Bool.or_eq_true]
      tauto
    have hdb' : dbEnvMissing e = false := by
      simpa using hdb
    exact ⟨awsEnvMsg, by simp [startup, hdb', haws], Or.inr ⟨rfl, haws⟩,
      by simp [startup, hdb', haws]⟩

/-- Witness for C1 at a configuration with `DB_HOST` unset. -/
theorem C1_missing_env_exits_witness :
    ((falsy envNoDbHost.DB_HOST || falsy envNoDbHost.DB_USER || falsy envNoDbHost.DB_PASSWORD ||
      falsy envNoDbHost.DB_NAME || falsy envNoDbHost.AWS_ACCESS_KEY_ID ||
      falsy envNoDbHost.AWS_SECRET_ACCESS_KEY || falsy envNoDbHost.AWS_REGION ||
      falsy envNoDbHost.S3_BUCKET_NAME) = true) ∧
    (∃ msg, startup envNoDbHost = .exited 1 msg ∧
      ((msg = dbEnvMsg ∧ dbEnvMissing envNoDbHost = true) ∨
        (msg = awsEnvMsg ∧ awsEnvMissing envNoDbHost = true)) ∧
      ∀ port, startup envNoDbHost ≠ .listening port) :=
  ⟨by rfl, C1_missing_env_exits envNoDbHost (by rfl)⟩

/-- C10: when required variables from both groups are missing, the diagnostic
names only the database group — the database check runs first and exits. -/
theorem C10_db_group_reported_first (e : Env)
    (hdb : dbEnvMissing e = true) (haws : awsEnvMissing e = true) :
    startup e = .exited 1 dbEnvMsg ∧ dbEnvMsg ≠ awsEnvMsg :=
  ⟨by simp [startup, hdb, haws], by decide⟩

/-- Witness for C10 at a configuration with every variable unset. -/
theorem C10_db_group_reported_first_witness :
    dbEnvMissing envAllUnset = true ∧ awsEnvMissing envAllUnset = true ∧
    (startup envAllUnset = .exited 1 dbEnvMsg ∧ dbEnvMsg ≠ awsEnvMsg) :=
  ⟨by rfl, by rfl, C10_db_group_reported_first envAllUnset (by rfl) (by rfl)⟩

/-- C9: every run of the `GET /` handler sends exactly one response — the
database-error branch, the signing-error branch and the success render are
mutually exclusive and each ends the handler. -/
theorem C9_single_response (bucket : String) (ctx : RequestCtx) :
    (responsesOf (handleRoot bucket ctx)).length = 1 := by
  rcases hdb : ctx.dbResult with e | results
  · simp [handleRoot, hdb, responsesOf, responseOfEvent]
  · rcases hs3 : ctx.s3Result with e | u
    · simp [handleRoot, hdb, hs3, getSignedUrl, responsesOf, responseOfEvent]
    · simp [handleRoot, hdb, hs3, getSignedUrl, responsesOf, responseOfEvent]

/-! ## Request fixtures -/

/-- A request context in which both the query and the signing succeed. -/
def rootCtxOk : RequestCtx :=
  { dbResult := .ok sampleProducts, s3Result := .ok (), now := 1000 }

/-- A later successful request context (clock has advanced). -/
def rootCtxOk2 : RequestCtx :=
  { dbResult := .ok sampleProducts, s3Result := .ok (), now := 2000 }

/-- A request context in which the database query fails. -/
def rootCtxDbErr : RequestCtx :=
  { dbResult := .error "ER_NO_SUCH_TABLE", s3Result := .ok (), now := 1000 }

/-- A request context in which signing fails. -/
def rootCtxS3Err : RequestCtx :=
  { dbResult := .ok sampleProducts, s3Result := .error "CredentialsProviderError", now := 1000 }

/-- The signed URL issued in `rootCtxOk` against bucket `my-bucket`. -/
def urlSample : SignedUrl :=
  { bucket := "my-bucket", key := "banner.jpg", issuedAt := 1000, expiresIn := 3600 }

/-! ## Trace lemmas for the `GET /` handler -/

lemma queryRun_mem (bucket : String) (ctx : RequestCtx) :
    Event.queryRun "SELECT * FROM products" ∈ handleRoot bucket ctx := by
  rcases hdb : ctx.dbResult with e | results
  · simp [handleRoot, hdb]
  · rcases hs3 : ctx.s3Result with e | u <;> simp [handleRoot, hdb, hs3, getSignedUrl]

lemma signStart_mem (bucket : String) (ctx : RequestCtx) (results : List Product)
    (hdb : ctx.dbResult = .ok results) :
    Event.signStart bucket "banner.jpg" 3600 ∈ handleRoot bucket ctx := by
  rcases hs3 : ctx.s3Result with e | u <;> simp [handleRoot, hdb, hs3, getSignedUrl]

lemma signedUrlsOf_issuedAt (bucket : String) (ctx : RequestCtx) :
    ∀ u ∈ signedUrlsOf (handleRoot bucket ctx), u.issuedAt = ctx.now := by
  intro u hu
  rcases hdb : ctx.dbResult with e | results
  · simp [handleRoot, hdb, signedUrlsOf, urlOfEvent] at hu
  · rcases hs3 : ctx.s3Result with e | v
    · simp [handleRoot, hdb, hs3, getSignedUrl, signedUrlsOf, urlOfEvent] at hu
    · simp [handleRoot, hdb, hs3, getSignedUrl, signedUrlsOf, urlOfEvent, renderIndex] at hu
      rw [hu]

/-- C3: on database failure the handler sends exactly one response, status
500 with the fixed generic body, logs the cause, and performs neither signing
nor rendering; the body does not contain the database error text whenever
that text does not happen to occur in the fixed phrase `Database error`. -/
theorem C3_db_failure_generic (bucket : String) (ctx : RequestCtx) (e : String)
    (hdb : ctx.dbResult = .error e) :
    responsesOf (handleRoot bucket ctx) = [{ status := 500, body := .text "Database error" }] ∧
    Event.logErr ("Error fetching data from database: " ++ e) ∈ handleRoot bucket ctx ∧
    (∀ b k n, Event.signStart b k n ∉ handleRoot bucket ctx) ∧
    (∀ ps u, Event.renderCall ps u ∉ handleRoot bucket ctx) ∧
    (containsRun "Database error" e = false →
      ∀ r ∈ responsesOf (handleRoot bucket ctx), ∀ s, r.body = Body.text s →
        containsRun s e = false) := by
  refine ⟨?_, ?_, ?_, ?_, ?_⟩
  · simp [handleRoot, hdb, responsesOf, responseOfEvent]
  · simp [handleRoot, hdb]
  · intro b k n
    simp [handleRoot, hdb]
  · intro ps u
    simp [handleRoot, hdb]
  · intro hno r hr s hs
    simp [handleRoot, hdb, responsesOf, responseOfEvent] at hr
    rw [hr] at hs
    simp at hs
    rw [← hs]
    exact hno

/-- Witness for C3 with a failing query. -/
theorem C3_db_failure_generic_witness :
    rootCtxDbErr.dbResult = Except.error "ER_NO_SUCH_TABLE" ∧
    (responsesOf (handleRoot "my-bucket" rootCtxDbErr)
        = [{ status := 500, body := .text "Database error" }] ∧
      Event.logErr ("Error fetching data from database: " ++ "ER_NO_SUCH_TABLE")
        ∈ handleRoot "my-bucket" rootCtxDbErr ∧
      (∀ b k n, Event.signStart b k n ∉ handleRoot "my-bucket" rootCtxDbErr) ∧
      (∀ ps u, Event.renderCall ps u ∉ handleRoot "my-bucket" rootCtxDbErr) ∧
      (containsRun "Database error" "ER_NO_SUCH_TABLE" = false →
        ∀ r ∈ responsesOf (handleRoot "my-bucket" rootCtxDbErr), ∀ s, r.body = Body.text s →
          containsRun s "ER_NO_SUCH_TABLE" = false)) :=
  ⟨rfl, C3_db_failure_generic "my-bucket" rootCtxDbErr "ER_NO_SUCH_TABLE" rfl⟩

/-- C2: on signing failure after a successful query the handler sends exactly
one response, status 500 with body `S3 error`, whose wording differs from the
database-failure body, and the fetched rows are never passed to the renderer. -/
theorem C2_sign_failure_no_render (bucket : String) (ctx : RequestCtx)
    (results : List Product) (e : String)
    (hdb : ctx.dbResult = .ok results) (hs3 : ctx.s3Result = .error e) :
    responsesOf (handleRoot bucket ctx) = [{ status := 500, body := .text "S3 error" }] ∧
    Body.text "S3 error" ≠ Body.text "Database error" ∧
    Event.logErr ("Error fetching static file from S3: " ++ e) ∈ handleRoot bucket ctx ∧
    (∀ ps u, Event.renderCall ps u ∉ handleRoot bucket ctx) := by
  refine ⟨?_, by decide, ?_, ?_⟩
  · simp [handleRoot, hdb, hs3, getSignedUrl, responsesOf, responseOfEvent]
  · simp [handleRoot, hdb, hs3, getSignedUrl]
  · intro ps u
    simp [handleRoot, hdb, hs3, getSignedUrl]

/-- Witness for C2 with failing credentials. -/
theorem C2_sign_failure_no_render_witness :
    rootCtxS3Err.dbResult = Except.ok sampleProducts ∧
    rootCtxS3Err.s3Result = Except.error "CredentialsProviderError" ∧
    (responsesOf (handleRoot "my-bucket" rootCtxS3Err)
        = [{ status := 500, body := .text "S3 error" }] ∧
      Body.text "S3 error" ≠ Body.text "Database error" ∧
      Event.logErr ("Error fetching static file from S3: " ++ "CredentialsProviderError")
        ∈ handleRoot "my-bucket" rootCtxS3Err ∧
      (∀ ps u, Event.renderCall ps u ∉ handleRoot "my-bucket" rootCtxS3Err)) :=
  ⟨rfl, rfl,
    C2_sign_failure_no_render "my-bucket" rootCtxS3Err sampleProducts
      "CredentialsProviderError" rfl rfl⟩

/-- C4: when both steps succeed the handler hands the full row sequence and
the signed URL to the renderer and answers 200 with its output; the page has
exactly one item per row, in order, each showing the name, description of that row
and price, the price carrying exactly two fraction digits. -/
theorem C4_success_renders_each_row (bucket : String) (ctx : RequestCtx)
    (results : List Product)
    (hdb : ctx.dbResult = .ok results) (hs3 : ctx.s3Result = .ok ()) :
    ∃ url : SignedUrl,
      Event.renderCall results url ∈ handleRoot bucket ctx ∧
      responsesOf (handleRoot bucket ctx)
        = [{ status := 200, body := .html (renderIndex results url) }] ∧
      (renderIndex results url).items = results.map renderProduct ∧
      (renderIndex results url).items.length = results.length ∧
      ∀ p ∈ results,
        (renderProduct p).name = p.name ∧
        (renderProduct p).description = p.description.getD "" ∧
        (renderProduct p).priceText = "Price: $" ++ decimalString p.priceCents ∧
        (fractionDigits (renderProduct p).priceText).length = 2 ∧
        ∀ c ∈ fractionDigits (renderProduct p).priceText, c.isDigit = true := by
  refine ⟨{ bucket := bucket, key := "banner.jpg", issuedAt := ctx.now, expiresIn := 3600 },
    ?_, ?_, rfl, ?_, ?_⟩
  · simp [handleRoot, hdb, hs3, getSignedUrl]
  · simp [handleRoot, hdb, hs3, getSignedUrl, responsesOf, responseOfEvent]
  · simp [renderIndex]
  · intro p hp
    refine ⟨rfl, rfl, rfl, ?_, ?_⟩
    · rw [fractionDigits_priceText]
      rfl
    · rw [fractionDigits_priceText]
      intro c hc
      simp at hc
      rcases hc with hc | hc
      · rw [hc]
        exact (digitChar_props _).1
      · rw [hc]
        exact (digitChar_props _).1

/-- Witness for C4 on the three sample rows of the walkthrough. -/
theorem C4_success_renders_each_row_witness :
    rootCtxOk.dbResult = Except.ok sampleProducts ∧
    rootCtxOk.s3Result = Except.ok () ∧
    (∃ url : SignedUrl,
      Event.renderCall sampleProducts url ∈ handleRoot "my-bucket" rootCtxOk ∧
      responsesOf (handleRoot "my-bucket" rootCtxOk)
        = [{ status := 200, body := .html (renderIndex sampleProducts url) }] ∧
      (renderIndex sampleProducts url).items = sampleProducts.map renderProduct ∧
      (renderIndex sampleProducts url).items.length = sampleProducts.length ∧
      ∀ p ∈ sampleProducts,
        (renderProduct p).name = p.name ∧
        (renderProduct p).description = p.description.getD "" ∧
        (renderProduct p).priceText = "Price: $" ++ decimalString p.priceCents ∧
        (fractionDigits (renderProduct p).priceText).length = 2 ∧
        ∀ c ∈ fractionDigits (renderProduct p).priceText, c.isDigit = true) :=
  ⟨rfl, rfl, C4_success_renders_each_row "my-bucket" rootCtxOk sampleProducts rfl rfl⟩

/-- C5: whenever the URL-signing step occurs in a handler trace, the database
fetch completed successfully at a strictly earlier position — signing is only
reached on the success branch of the fetch. -/
theorem C5_sign_after_query_success (bucket : String) (ctx : RequestCtx) (i : Nat)
    (h : firstIdx Event.isSignStart (handleRoot bucket ctx) = some i) :
    ∃ results j, ctx.dbResult = Except.ok results ∧
      firstIdx Event.isQueryOk (handleRoot bucket ctx) = some j ∧ j < i := by
  rcases hdb : ctx.dbResult with e | results
  · simp [handleRoot, hdb, firstIdx, Event.isSignStart] at h
  · have hi : i = 2 := by
      rcases hs3 : ctx.s3Result with e | u <;>
        · simp [handleRoot, hdb, hs3, getSignedUrl, firstIdx, Event.isSignStart] at h
          omega
    subst hi
    refine ⟨results, 1, rfl, ?_, by omega⟩
    rcases hs3 : ctx.s3Result with e | u <;>
      simp [handleRoot, hdb, hs3, getSignedUrl, firstIdx, Event.isQueryOk, Event.isSignStart]

/-- Witness for C5 on a successful request. -/
theorem C5_sign_after_query_success_witness :
    firstIdx Event.isSignStart (handleRoot "my-bucket" rootCtxOk) = some 2 ∧
    (∃ results j, rootCtxOk.dbResult = Except.ok results ∧
      firstIdx Event.isQueryOk (handleRoot "my-bucket" rootCtxOk) = some j ∧ j < 2) :=
  ⟨by rfl, C5_sign_after_query_success "my-bucket" rootCtxOk 2 (by rfl)⟩

/-- C6: every signed URL embedded in a successful response is for the fixed
key `banner.jpg` with a validity window of exactly 3600 seconds from its
issuance instant (the clock reading of that request). -/
theorem C6_signed_url_key_expiry (bucket : String) (ctx : RequestCtx)
    (r : Response) (pg : Page)
    (hr : Event.respond r ∈ handleRoot bucket ctx) (hb : r.body = Body.html pg) :
    pg.bannerUrl.key = "banner.jpg" ∧ pg.bannerUrl.expiresIn = 3600 ∧
    pg.bannerUrl.expiresAt = pg.bannerUrl.issuedAt + 3600 ∧
    pg.bannerUrl.issuedAt = ctx.now ∧ r.status = 200 := by
  rcases hdb : ctx.dbResult with e | results
  · simp [handleRoot, hdb] at hr
    rw [hr] at hb
    simp at hb
  · rcases hs3 : ctx.s3Result with e | u
    · simp [handleRoot, hdb, hs3, getSignedUrl] at hr
      rw [hr] at hb
      simp at hb
    · simp [handleRoot, hdb, hs3, getSignedUrl] at hr
      rw [hr] at hb
      simp [renderIndex] at hb
      rw [hr, ← hb]
      refine ⟨rfl, rfl, rfl, rfl, rfl⟩

/-- Witness for C6 on a successful request. -/
theorem C6_signed_url_key_expiry_witness :
    Event.respond { status := 200, body := .html (renderIndex sampleProducts urlSample) }
      ∈ handleRoot "my-bucket" rootCtxOk ∧
    (renderIndex sampleProducts urlSample).bannerUrl.key = "banner.jpg" ∧
    (renderIndex sampleProducts urlSample).bannerUrl.expiresIn = 3600 ∧
    (renderIndex sampleProducts urlSample).bannerUrl.expiresAt
      = (renderIndex sampleProducts urlSample).bannerUrl.issuedAt + 3600 ∧
    (renderIndex sampleProducts urlSample).bannerUrl.issuedAt = rootCtxOk.now ∧
    ({ status := 200, body := Body.html (renderIndex sampleProducts urlSample) } : Response).status
      = 200 := by
  refine ⟨by decide, ?_⟩
  have h := C6_signed_url_key_expiry "my-bucket" rootCtxOk
    { status := 200, body := .html (renderIndex sampleProducts urlSample) }
    (renderIndex sampleProducts urlSample) (by decide) rfl
  exact ⟨h.1, h.2.1, h.2.2.1, h.2.2.2.1, h.2.2.2.2⟩

/-- C7: nothing is cached across requests — the trace of every request runs the
query, every request whose fetch succeeded starts the signing step, and two
requests at distinct clock readings embed signed URLs with distinct issuance
timestamps. -/
theorem C7_no_cross_request_caching (bucket : String) (ctx1 ctx2 : RequestCtx)
    (hnow : ctx1.now ≠ ctx2.now) :
    Event.queryRun "SELECT * FROM products" ∈ handleRoot bucket ctx1 ∧
    Event.queryRun "SELECT * FROM products" ∈ handleRoot bucket ctx2 ∧
    (∀ results, ctx1.dbResult = Except.ok results →
      Event.signStart bucket "banner.jpg" 3600 ∈ handleRoot bucket ctx1) ∧
    (∀ results, ctx2.dbResult = Except.ok results →
      Event.signStart bucket "banner.jpg" 3600 ∈ handleRoot bucket ctx2) ∧
    (∀ u1 ∈ signedUrlsOf (handleRoot bucket ctx1),
      ∀ u2 ∈ signedUrlsOf (handleRoot bucket ctx2), u1.issuedAt ≠ u2.issuedAt) := by
  refine ⟨queryRun_mem bucket ctx1, queryRun_mem bucket ctx2,
    fun results h => signStart_mem bucket ctx1 results h,
    fun results h => signStart_mem bucket ctx2 results h,
    ?_⟩
  intro u1 h1 u2 h2
  rw [signedUrlsOf_issuedAt bucket ctx1 u1 h1, signedUrlsOf_issuedAt bucket ctx2 u2 h2]
  exact hnow

/-- Witness for C7 on two successive successful requests. -/
theorem C7_no_cross_request_caching_witness :
    rootCtxOk.now ≠ rootCtxOk2.now ∧
    (Event.queryRun "SELECT * FROM products" ∈ handleRoot "my-bucket" rootCtxOk ∧
      Event.queryRun "SELECT * FROM products" ∈ handleRoot "my-bucket" rootCtxOk2 ∧
      (∀ results, rootCtxOk.dbResult = Except.ok results →
        Event.signStart "my-bucket" "banner.jpg" 3600 ∈ handleRoot "my-bucket" rootCtxOk) ∧
      (∀ results, rootCtxOk2.dbResult = Except.ok results →
        Event.signStart "my-bucket" "banner.jpg" 3600 ∈ handleRoot "my-bucket" rootCtxOk2) ∧
      (∀ u1 ∈ signedUrlsOf (handleRoot "my-bucket" rootCtxOk),
        ∀ u2 ∈ signedUrlsOf (handleRoot "my-bucket" rootCtxOk2),
          u1.issuedAt ≠ u2.issuedAt)) :=
  ⟨by decide, C7_no_cross_request_caching "my-bucket" rootCtxOk rootCtxOk2 (by decide)⟩

/-! ## Shutdown lemmas -/

lemma drainSteps_inFlight (k : Nat) (p : Pool) :
    (drainSteps k p).inFlight = p.inFlight - k := by
  induction k generalizing p with
  | zero => simp [drainSteps]
  | succ k ih =>
      rw [drainSteps, ih]
      simp [completeOp]
      omega

lemma drainSteps_closed (k : Nat) (p : Pool) : (drainSteps k p).closed = p.closed := by
  induction k generalizing p with
  | zero => simp [drainSteps]
  | succ k ih =>
      rw [drainSteps, ih]
      rfl

/-- C8: on a termination signal, new pool checkouts are refused, the pool is
not closed while any in-flight operation remains, it is closed once all have
completed, and the process then exits with status 0. -/
theorem C8_sigint_graceful_shutdown (p : Pool) (hclosed : p.closed = false) :
    checkout (poolEnd p) = none ∧
    (∀ k, k < p.inFlight →
      (drainSteps k (poolEnd p)).closed = false ∧ 0 < (drainSteps k (poolEnd p)).inFlight) ∧
    (sigintHandler p).pool.inFlight = 0 ∧
    (sigintHandler p).pool.closed = true ∧
    (sigintHandler p).exitCode = 0 := by
  refine ⟨?_, ?_, ?_, rfl, rfl⟩
  · simp [checkout, poolEnd]
  · intro k hk
    constructor
    · rw [drainSteps_closed]
      simpa [poolEnd] using hclosed
    · rw [drainSteps_inFlight]
      simp [poolEnd]
      omega
  · show (closePool (drainSteps (poolEnd p).inFlight (poolEnd p))).inFlight = 0
    simp [closePool, drainSteps_inFlight]

/-- Witness for C8 with two in-flight operations at signal time. -/
theorem C8_sigint_graceful_shutdown_witness :
    (Pool.mk 2 true false).closed = false ∧
    (checkout (poolEnd (Pool.mk 2 true false)) = none ∧
      (∀ k, k < (Pool.mk 2 true false).inFlight →
        (drainSteps k (poolEnd (Pool.mk 2 true false))).closed = false ∧
        0 < (drainSteps k (poolEnd (Pool.mk 2 true false))).inFlight) ∧
      (sigintHandler (Pool.mk 2 true false)).pool.inFlight = 0 ∧
      (sigintHandler (Pool.mk 2 true false)).pool.closed = true ∧
      (sigintHandler (Pool.mk 2 true false)).exitCode = 0) :=
  ⟨rfl, C8_sigint_graceful_shutdown (Pool.mk 2 true false) rfl⟩

end NodeAppDb
